import Mathlib

set_option autoImplicit false

/-!
Shallow embedding of the MQTT control-and-telemetry gateway
(`hummingbot/remote_iface/mqtt.py`): the command dispatcher
(`MQTTCommands`), the event forwarder (`MQTTEventForwarder`) and the log
sink (`MQTTLogHandler`).

Conventions of the embedding:
- A Python call that may raise is modelled as a value of `Except String α`;
  the string is `str(e)` of the raised exception.
- The application object (`self._hb_app`) is modelled as a record `HBApp`
  of operation outcomes; handlers are pure functions of that record.
- Side effects a claim talks about (invoking the application's import
  operation, forwarding a message to the notification path, validating or
  applying a config key, registering listeners) are returned as explicit
  effect traces alongside the computed response.
- Wall-clock reads (`time.time()`, `datetime.now().timestamp()`) are
  modelled by an explicit `now : Int` parameter; event-payload field
  values are modelled opaquely as integers, so Python's `int(...)`
  coercion of an extracted timestamp is the identity on them.
-/

/-- Status codes of the command responses. Modelled from the spec: every
response carries a status code `OK` or `ERROR` (the concrete numeric
values live in `hummingbot/remote_iface/messages.py`, which is not part
of the analysed source); the default, left untouched on success, is `OK`. -/
inductive MQTT_STATUS_CODE where
  | OK
  | ERROR
deriving DecidableEq, Repr

/-- Request shape of the start command (`StartCommandMessage.Request`).
Modelled from the spec: log-level, restore flag, script name and a
quickstart flag are forwarded to the application. -/
structure StartRequest where
  log_level : Option String
  restore : Bool
  script : Option String
  is_quickstart : Bool
deriving DecidableEq, Repr

/-- Request shape of the stop command (`StopCommandMessage.Request`). -/
structure StopRequest where
  skip_order_cancellation : Bool
deriving DecidableEq, Repr

/-- Request shape of the config command: a list of `(key, value)` pairs. -/
structure ConfigRequest where
  params : List (String × String)
deriving DecidableEq, Repr

/-- Request shape of the import command: an optional strategy name. -/
structure ImportRequest where
  strategy : Option String
deriving DecidableEq, Repr

/-- Request shape of the status command (no fields are read by the
handler). -/
structure StatusRequest where
deriving DecidableEq, Repr

/-- Request shape of the history command. Numeric parameters are passed
through opaquely to the application; they are modelled as integers. -/
structure HistoryRequest where
  days : Int
  verbose : Bool
  precision : Option Int
deriving DecidableEq, Repr

/-- Request shape of the balance-limit command. The amount is passed
through opaquely; it is modelled as a string. -/
structure BalanceLimitRequest where
  exchange : String
  asset : String
  amount : String
deriving DecidableEq, Repr

/-- Request shape of the balance-paper command. -/
structure BalancePaperRequest where
  asset : String
  amount : String
deriving DecidableEq, Repr

/-- Response of the start command: status and message only. Modelled from
the spec: defaults are `OK` and the empty message. -/
structure StartResponse where
  status : MQTT_STATUS_CODE := .OK
  msg : String := ""
deriving DecidableEq, Repr

/-- Response of the stop command. -/
structure StopResponse where
  status : MQTT_STATUS_CODE := .OK
  msg : String := ""
deriving DecidableEq, Repr

/-- Response of the config command: adds the list of applied
`(key, value)` changes, empty by default. -/
structure ConfigResponse where
  status : MQTT_STATUS_CODE := .OK
  msg : String := ""
  changes : List (String × String) := []
deriving DecidableEq, Repr

/-- Response of the import command. -/
structure ImportResponse where
  status : MQTT_STATUS_CODE := .OK
  msg : String := ""
deriving DecidableEq, Repr

/-- Response of the status command: adds the status text payload, empty
by default. -/
structure StatusResponse where
  status : MQTT_STATUS_CODE := .OK
  msg : String := ""
  data : String := ""
deriving DecidableEq, Repr

/-- Response of the history command: adds the serialized trade records,
empty by default. Trade records are modelled opaquely as strings. -/
structure HistoryResponse where
  status : MQTT_STATUS_CODE := .OK
  msg : String := ""
  trades : List String := []
deriving DecidableEq, Repr

/-- Response of the balance-limit command: adds the balance data payload,
empty by default. -/
structure BalanceLimitResponse where
  status : MQTT_STATUS_CODE := .OK
  msg : String := ""
  data : String := ""
deriving DecidableEq, Repr

/-- Response of the balance-paper command. -/
structure BalancePaperResponse where
  status : MQTT_STATUS_CODE := .OK
  msg : String := ""
  data : String := ""
deriving DecidableEq, Repr

/-- The application object `self._hb_app` as seen by the command
handlers: each delegated operation is modelled by its outcome, an
`Except String` value whose error carries `str(e)` of the raised
exception. `notify` is treated as a non-raising collaborator and is
recorded as an effect by the handlers that call it. -/
structure HBApp where
  start : Option String → Bool → Option String → Bool → Except String Unit
  stop : Bool → Except String Unit
  config_interactive : Except String Unit
  config : String → String → Except String Unit
  configurable_keys : List String
  import_command : String → Except String Unit
  strategy_status : Except String String
  history : Int → Bool → Option Int → Except String Unit
  get_history_trades : Int → Except String (List String)
  balance : String → List String → Except String String

/-- Effects recorded by the config handler: the interactive flow, the
allow-list membership check of a key, and the application of a pair. -/
inductive ConfigEffect where
  | interactive
  | validate (key : String)
  | applyCall (key : String) (value : String)
deriving DecidableEq, Repr

/-- Effects recorded by the import handler: invoking the application's
strategy-import operation on a config-file name, and forwarding a text to
the application's notification path. -/
inductive CmdEffect where
  | importCall (file : String)
  | notifyCall (text : String)
deriving DecidableEq, Repr

/-- Embeds `MQTTCommands._on_cmd_start`: invoke `hb_app.start` with the
request fields inside a catch-all; on failure set `ERROR` and `str(e)`. -/
def on_cmd_start (app : HBApp) (msg : StartRequest) : StartResponse :=
  match app.start msg.log_level msg.restore msg.script msg.is_quickstart with
  | .ok _ => {}
  | .error e => { status := .ERROR, msg := e }

/-- Embeds `MQTTCommands._on_cmd_stop`. -/
def on_cmd_stop (app : HBApp) (msg : StopRequest) : StopResponse :=
  match app.stop msg.skip_order_cancellation with
  | .ok _ => {}
  | .error e => { status := .ERROR, msg := e }

/-- Embeds the `for param in msg.params` loop of
`MQTTCommands._on_cmd_config`, with the accumulated `response.changes`
and the effect trace as explicit state. The body first checks allow-list
membership of the key, then applies the pair, and only afterwards appends
it to `changes`; a failure of the application aborts the loop with the
changes accumulated so far. -/
def config_go (app : HBApp) :
    List (String × String) → List (String × String) → List ConfigEffect →
    ConfigResponse × List ConfigEffect
  | [], changes, fx => ({ changes := changes }, fx)
  | (k, v) :: rest, changes, fx =>
    if k ∈ app.configurable_keys then
      match app.config k v with
      | .ok _ =>
        config_go app rest (changes ++ [(k, v)])
          (fx ++ [ConfigEffect.validate k, ConfigEffect.applyCall k v])
      | .error e =>
        ({ status := .ERROR, msg := e, changes := changes },
          fx ++ [ConfigEffect.validate k, ConfigEffect.applyCall k v])
    else
      config_go app rest changes (fx ++ [ConfigEffect.validate k])

/-- Embeds `MQTTCommands._on_cmd_config`: an empty parameter list
triggers the interactive flow; otherwise the pairs are iterated in order
by `config_go`. -/
def on_cmd_config (app : HBApp) (msg : ConfigRequest) :
    ConfigResponse × List ConfigEffect :=
  if msg.params.length = 0 then
    match app.config_interactive with
    | .ok _ => ({}, [ConfigEffect.interactive])
    | .error e => ({ status := .ERROR, msg := e }, [ConfigEffect.interactive])
  else
    config_go app msg.params [] []

/-- Embeds `MQTTCommands._on_cmd_import`: a null strategy name skips the
application call entirely; otherwise the fixed extension `.yml` is
appended and the import operation invoked; on failure the message is
forwarded to `hb_app.notify` and the error response returned. -/
def on_cmd_import (app : HBApp) (msg : ImportRequest) :
    ImportResponse × List CmdEffect :=
  match msg.strategy with
  | none => ({}, [])
  | some strategy_name =>
    let strategy_file_name := strategy_name ++ (".yml")
    match app.import_command strategy_file_name with
    | .ok _ => ({}, [CmdEffect.importCall strategy_file_name])
    | .error e =>
      ({ status := .ERROR, msg := e },
        [CmdEffect.importCall strategy_file_name, CmdEffect.notifyCall e])

/-- Embeds `MQTTCommands._on_cmd_status`: block on the asynchronous
status computation, trim the text, and return it as payload. -/
def on_cmd_status (app : HBApp) (_msg : StatusRequest) : StatusResponse :=
  match app.strategy_status with
  | .ok s => { data := s.trim }
  | .error e => { status := .ERROR, msg := e }

/-- Embeds `MQTTCommands._on_cmd_history`: trigger the history display,
then fetch the trade records; a non-empty record set is serialized into
the payload. -/
def on_cmd_history (app : HBApp) (msg : HistoryRequest) : HistoryResponse :=
  match app.history msg.days msg.verbose msg.precision with
  | .error e => { status := .ERROR, msg := e }
  | .ok _ =>
    match app.get_history_trades msg.days with
    | .error e => { status := .ERROR, msg := e }
    | .ok trades =>
      if trades.isEmpty then {} else { trades := trades }

/-- Embeds `MQTTCommands._on_cmd_balance_limit`. -/
def on_cmd_balance_limit (app : HBApp) (msg : BalanceLimitRequest) :
    BalanceLimitResponse :=
  match app.balance ("limit") [msg.exchange, msg.asset, msg.amount] with
  | .ok data => { data := data }
  | .error e => { status := .ERROR, msg := e }

/-- Embeds `MQTTCommands._on_cmd_balance_paper`. -/
def on_cmd_balance_paper (app : HBApp) (msg : BalancePaperRequest) :
    BalancePaperResponse :=
  match app.balance ("paper") [msg.asset, msg.amount] with
  | .ok data => { data := data }
  | .error e => { status := .ERROR, msg := e }

/-- Modelled from the spec: the closed set of internal event-type
identifiers used by the forwarder (`hummingbot.core.event.events
.MarketEvent`, not part of the analysed source). The spec fixes only that
the identifiers form a closed compile-time set; they are modelled as
distinct integers matching the upstream enum. -/
inductive MarketEvent where
  | BuyOrderCreated
  | BuyOrderCompleted
  | SellOrderCreated
  | SellOrderCompleted
  | OrderFilled
  | OrderFailure
  | OrderCancelled
  | OrderExpired
  | FundingPaymentCompleted
  | RangePositionLiquidityAdded
  | RangePositionLiquidityRemoved
  | RangePositionUpdate
  | RangePositionUpdateFailure
  | RangePositionFeeCollected
  | RangePositionClosed
deriving DecidableEq, Repr

/-- Modelled from the spec: the numeric value of each event-type
identifier; distinct integers. -/
def MarketEvent.value : MarketEvent → Int
  | .BuyOrderCompleted => 102
  | .SellOrderCompleted => 103
  | .OrderCancelled => 105
  | .OrderFilled => 106
  | .OrderExpired => 107
  | .OrderFailure => 198
  | .BuyOrderCreated => 200
  | .SellOrderCreated => 201
  | .FundingPaymentCompleted => 202
  | .RangePositionLiquidityAdded => 300
  | .RangePositionLiquidityRemoved => 301
  | .RangePositionUpdate => 302
  | .RangePositionUpdateFailure => 303
  | .RangePositionFeeCollected => 304
  | .RangePositionClosed => 305

/-- Embeds the `event_types` dict literal of
`MQTTEventForwarder._send_mqtt_event`: the closed label table from
event-type identifier to human-readable label, in source order. -/
def event_types : List (Int × String) :=
  [(MarketEvent.value .BuyOrderCreated, ("BuyOrderCreated")),
   (MarketEvent.value .BuyOrderCompleted, ("BuyOrderCompleted")),
   (MarketEvent.value .SellOrderCreated, ("SellOrderCreated")),
   (MarketEvent.value .SellOrderCompleted, ("SellOrderCompleted")),
   (MarketEvent.value .OrderFilled, ("OrderFilled")),
   (MarketEvent.value .OrderCancelled, ("OrderCancelled")),
   (MarketEvent.value .OrderExpired, ("OrderExpired")),
   (MarketEvent.value .OrderFailure, ("OrderFailure")),
   (MarketEvent.value .FundingPaymentCompleted, ("FundingPaymentCompleted")),
   (MarketEvent.value .RangePositionLiquidityAdded, ("RangePositionLiquidityAdded")),
   (MarketEvent.value .RangePositionLiquidityRemoved, ("RangePositionLiquidityRemoved")),
   (MarketEvent.value .RangePositionUpdate, ("RangePositionUpdate")),
   (MarketEvent.value .RangePositionUpdateFailure, ("RangePositionUpdateFailure")),
   (MarketEvent.value .RangePositionFeeCollected, ("RangePositionFeeCollected")),
   (MarketEvent.value .RangePositionClosed, ("RangePositionClosed"))]

/-- Lookup of an event-type identifier in the label table; `none` models
the `KeyError` branch of the source. -/
def label_lookup (tag : Int) : List (Int × String) → Option String
  | [] => none
  | (k, v) :: rest => if k = tag then some v else label_lookup tag rest

/-- Lookup of a key in a Python-dict modelled as an association list. -/
def dict_lookup (key : String) : List (String × Int) → Option Int
  | [] => none
  | (k, v) :: rest => if k = key then some v else dict_lookup key rest

/-- Removal of a key from a Python-dict modelled as an association
list. -/
def dict_erase (key : String) : List (String × Int) → List (String × Int)
  | [] => []
  | (k, v) :: rest =>
    if k = key then dict_erase key rest else (k, v) :: dict_erase key rest

/-- Embeds `event_data.pop('timestamp')` guarded by the `KeyError`
handler: return the removed value (if any) and the remaining dict. -/
def dict_pop (key : String) (d : List (String × Int)) :
    Option Int × List (String × Int) :=
  match dict_lookup key d with
  | some v => (some v, dict_erase key d)
  | none => (none, d)

/-- An event payload as probed by `_send_mqtt_event`, following the
spec's closed-variant modelling of the duck-typed shapes: each capability
is present (`some` fields) exactly when the corresponding Python probe
succeeds — `is_dataclass(event)` / `asdict`, tuple with `_fields` /
`_asdict`, and `dict(event)` (whose `TypeError`/`ValueError` is the
`none` case). Field values are modelled opaquely as integers. -/
structure EventPayload where
  dataclassFields : Option (List (String × Int))
  tupleFields : Option (List (String × Int))
  dictConv : Option (List (String × Int))
deriving DecidableEq, Repr

/-- Embeds the payload-normalization cascade of `_send_mqtt_event`:
dataclass conversion first, then named-tuple conversion, then generic
mapping conversion, and the empty mapping if everything fails. -/
def normalize_event_data (event : EventPayload) : List (String × Int) :=
  match event.dataclassFields with
  | some fs => fs
  | none =>
    match event.tupleFields with
    | some fs => fs
    | none =>
      match event.dictConv with
      | some ps => ps
      | none => []

/-- The wire shape of an event message (`EventMessage` of
`hummingbot/remote_iface/messages.py`, modelled from the spec):
integer epoch timestamp, string type label, and a data mapping. -/
structure EventMessage where
  timestamp : Int
  type : String
  data : List (String × Int)
deriving DecidableEq, Repr

/-- Embeds the main-thread body of `MQTTEventForwarder._send_mqtt_event`:
label lookup with `Unknown` fallback, payload normalization, `timestamp`
extraction with wall-clock fallback (`now`), and construction of the
published message. -/
def send_mqtt_event_main (now : Int) (event_tag : Int) (event : EventPayload) :
    EventMessage :=
  let event_type :=
    match label_lookup event_tag event_types with
    | some l => l
    | none => ("Unknown")
  let event_data := normalize_event_data event
  let popped := dict_pop ("timestamp") event_data
  let timestamp :=
    match popped.1 with
    | some v => v
    | none => now
  { timestamp := timestamp, type := event_type, data := popped.2 }

/-- What one invocation of `_send_mqtt_event` does: either re-submit the
identical call to the owning (main) thread via
`call_soon_threadsafe` and return, or publish the built message. -/
inductive SendAction where
  | resubmit (event_tag : Int) (pubsub : Nat) (event : EventPayload)
  | publish (msg : EventMessage)
deriving DecidableEq, Repr

/-- Embeds `MQTTEventForwarder._send_mqtt_event` including its thread
guard: invoked off the main thread it re-submits the identical arguments
and returns immediately; on the main thread it publishes. The `pubsub`
argument is the opaque source reference, passed through unchanged. -/
def send_mqtt_event (on_main_thread : Bool) (now : Int) (event_tag : Int)
    (pubsub : Nat) (event : EventPayload) : SendAction :=
  if on_main_thread = false then
    .resubmit event_tag pubsub event
  else
    .publish (send_mqtt_event_main now event_tag event)

/-- Drives one event through the forwarder: a call from the given thread,
followed by the owning event loop executing a re-submitted call (if any)
on the main thread. Returns the list of published messages. -/
def run_event_handling (on_main_thread : Bool) (now : Int) (event_tag : Int)
    (pubsub : Nat) (event : EventPayload) : List EventMessage :=
  match send_mqtt_event on_main_thread now event_tag pubsub event with
  | .publish m => [m]
  | .resubmit t p ev =>
    match send_mqtt_event true now t p ev with
    | .publish m => [m]
    | .resubmit _ _ _ => []

/-- The wire shape of a log message (`LogMessage` of
`hummingbot/remote_iface/messages.py`, modelled from the spec). The
timestamp is modelled as an integer clock reading. -/
structure LogMessage where
  timestamp : Int
  msg : String
  level_no : Int
  level_name : String
  logger_name : String
deriving DecidableEq, Repr

/-- The fields of a `logging.LogRecord` read by the log sink. -/
structure LogRecord where
  levelno : Int
  levelname : String
  name : String
deriving DecidableEq, Repr

/-- Embeds `MQTTLogHandler.emit` exactly as written: format the record,
build the log message, publish it, return it. The source contains no
exception handling, so a failure of the formatter or of the publisher
propagates to the caller; the `Except` result records exactly that. -/
def emit (format : LogRecord → Except String String)
    (publish : LogMessage → Except String Unit)
    (now : Int) (record : LogRecord) : Except String LogMessage := do
  let msg_str ← format record
  let msg : LogMessage :=
    { timestamp := now, msg := msg_str, level_no := record.levelno,
      level_name := record.levelname, logger_name := record.name }
  let _ ← publish msg
  return msg

/-- The topic template of the event forwarder. -/
def EVENT_URI : String := "hbot/$UID/events"

/-- Effects performed by `MQTTEventForwarder.__init__` and the
`start_event_listener` call it ends with. -/
inductive InitEffect where
  | createPublisher (topic : String)
  | addListener (market : String) (event_tag : Int)
deriving DecidableEq, Repr

/-- The state set up by a successful `MQTTEventForwarder.__init__`. -/
structure ForwarderState where
  topic : String
deriving DecidableEq, Repr

/-- The fixed closed list of market event types the forwarder registers
for, in the order of `_market_event_pairs`. -/
def market_event_list : List MarketEvent :=
  [.BuyOrderCreated, .BuyOrderCompleted, .SellOrderCreated,
   .SellOrderCompleted, .OrderFilled, .OrderFailure, .OrderCancelled,
   .OrderExpired, .FundingPaymentCompleted, .RangePositionLiquidityAdded,
   .RangePositionLiquidityRemoved, .RangePositionUpdate,
   .RangePositionUpdateFailure, .RangePositionFeeCollected,
   .RangePositionClosed]

/-- Embeds `MQTTEventForwarder.__init__`: the thread check is the very
first statement — off the main thread it raises `EnvironmentError`
before any state is created or any effect performed (the error case
carries no state and no effects); on the main thread it builds the topic,
creates the events publisher and registers the listeners of every
market. -/
def forwarder_init (on_main_thread : Bool) (uid : String)
    (markets : List String) :
    Except String (ForwarderState × List InitEffect) :=
  if on_main_thread = false then
    .error ("MQTTEventForwarder can only be initialized from the main thread.")
  else
    let topic := EVENT_URI.replace ("$UID") uid
    let fx := [InitEffect.createPublisher topic] ++
      markets.flatMap (fun m =>
        market_event_list.map (fun ev => InitEffect.addListener m ev.value))
    .ok ({ topic := topic }, fx)

/-- A concrete application whose every delegated operation raises with
message `boom`; used to instantiate the containment theorems. -/
def appFail : HBApp where
  start := fun _ _ _ _ => .error ("boom")
  stop := fun _ => .error ("boom")
  config_interactive := .error ("boom")
  config := fun _ _ => .error ("boom")
  configurable_keys := [("k1"), ("k2")]
  import_command := fun _ => .error ("boom")
  strategy_status := .error ("boom")
  history := fun _ _ _ => .error ("boom")
  get_history_trades := fun _ => .error ("boom")
  balance := fun _ _ => .error ("boom")

/-- A concrete application whose history display succeeds but whose trade
fetch raises; exercises the second failure point of the history
handler. -/
def appTradesFail : HBApp :=
  { appFail with
      history := fun _ _ _ => .ok ()
      get_history_trades := fun _ => .error ("boom") }

/-- A concrete application whose every delegated operation succeeds. -/
def appOk : HBApp where
  start := fun _ _ _ _ => .ok ()
  stop := fun _ => .ok ()
  config_interactive := .ok ()
  config := fun _ _ => .ok ()
  configurable_keys := [("k1"), ("k2")]
  import_command := fun _ => .ok ()
  strategy_status := .ok ("  running  ")
  history := fun _ _ _ => .ok ()
  get_history_trades := fun _ => .ok [("t1")]
  balance := fun _ _ => .ok ("bal")

/-- A concrete event payload: a structured record with an amount and a
timestamp field, as in the spec's worked example. -/
def payloadEx : EventPayload :=
  { dataclassFields := some [(("amount"), 5), (("timestamp"), 1000)],
    tupleFields := none, dictConv := none }

/-- A concrete event payload convertible by none of the probes. -/
def payloadNone : EventPayload :=
  { dataclassFields := none, tupleFields := none, dictConv := none }

/-- Looking up the erased key in an erased dict yields nothing. -/
theorem dict_lookup_erase_self (key : String) (d : List (String × Int)) :
    dict_lookup key (dict_erase key d) = none := by
  induction d with
  | nil => rfl
  | cons hd tl ih =>
    obtain ⟨k, v⟩ := hd
    by_cases h : k = key
    · simpa [dict_erase, h] using ih
    · simpa [dict_erase, dict_lookup, h] using ih

/-- Erasing one key leaves lookups of every other key unchanged. -/
theorem dict_lookup_erase_ne (key k : String) (hk : k ≠ key)
    (d : List (String × Int)) :
    dict_lookup k (dict_erase key d) = dict_lookup k d := by
  induction d with
  | nil => rfl
  | cons hd tl ih =>
    obtain ⟨a, v⟩ := hd
    by_cases h : a = key
    · subst h
      simpa [dict_erase, dict_lookup, Ne.symm hk] using ih
    · by_cases h2 : a = k
      · subst h2
        simp [dict_erase, dict_lookup, h]
      · simpa [dict_erase, dict_lookup, h, h2] using ih

/-- A tag absent from the key column of a label table looks up to
nothing. -/
theorem label_lookup_none_of_not_mem (tag : Int) (l : List (Int × String))
    (h : tag ∉ l.map Prod.fst) : label_lookup tag l = none := by
  induction l with
  | nil => rfl
  | cons hd tl ih =>
    obtain ⟨k, v⟩ := hd
    simp only [List.map_cons, List.mem_cons] at h
    push_neg at h
    simp [label_lookup, Ne.symm h.1, ih h.2]

/-- C1: the claim states that `MQTTLogHandler.emit` never raises and
contains any formatting or publish failure internally. The source method
has no exception handling at all: at a record whose publisher fails, the
failure propagates out of `emit` to the caller. -/
theorem log_handler_emit_propagates_publish_failure :
    emit (fun _ => .ok ("formatted line"))
      (fun _ => .error ("publish failure")) 0
      { levelno := 20, levelname := ("INFO"), name := ("hb") } =
      .error ("publish failure") := rfl

/-- C2: for every command handler and every error raised by the delegated
application operation, the error is contained (the handlers are total
functions into their response types) and the returned response carries
status `ERROR` and the error's string description as message. The config
conjunct is stated on `config_go` from an arbitrary reachable loop state,
covering a failure at any position of the parameter list. -/
theorem dispatcher_handlers_contain_app_errors
    (app : HBApp) (e s k v : String)
    (sreq : StartRequest) (preq : StopRequest) (hreq : HistoryRequest)
    (streq : StatusRequest) (blreq : BalanceLimitRequest)
    (bpreq : BalancePaperRequest)
    (rest changes : List (String × String)) (fx : List ConfigEffect) :
    (app.start sreq.log_level sreq.restore sreq.script sreq.is_quickstart =
        .error e →
      on_cmd_start app sreq = { status := .ERROR, msg := e }) ∧
    (app.stop preq.skip_order_cancellation = .error e →
      on_cmd_stop app preq = { status := .ERROR, msg := e }) ∧
    (app.config_interactive = .error e →
      on_cmd_config app { params := [] } =
        ({ status := .ERROR, msg := e }, [ConfigEffect.interactive])) ∧
    (k ∈ app.configurable_keys → app.config k v = .error e →
      config_go app ((k, v) :: rest) changes fx =
        ({ status := .ERROR, msg := e, changes := changes },
          fx ++ [ConfigEffect.validate k, ConfigEffect.applyCall k v])) ∧
    (app.import_command (s ++ (".yml")) = .error e →
      on_cmd_import app { strategy := some s } =
        ({ status := .ERROR, msg := e },
          [CmdEffect.importCall (s ++ (".yml")), CmdEffect.notifyCall e])) ∧
    (app.strategy_status = .error e →
      on_cmd_status app streq = { status := .ERROR, msg := e }) ∧
    (app.history hreq.days hreq.verbose hreq.precision = .error e →
      on_cmd_history app hreq = { status := .ERROR, msg := e }) ∧
    (app.balance ("limit") [blreq.exchange, blreq.asset, blreq.amount] =
        .error e →
      on_cmd_balance_limit app blreq = { status := .ERROR, msg := e }) ∧
    (app.balance ("paper") [bpreq.asset, bpreq.amount] = .error e →
      on_cmd_balance_paper app bpreq = { status := .ERROR, msg := e }) := by
  refine ⟨?_, ?_, ?_, ?_, ?_, ?_, ?_, ?_, ?_⟩
  · intro h; simp [on_cmd_start, h]
  · intro h; simp [on_cmd_stop, h]
  · intro h; simp [on_cmd_config, h]
  · intro hk h; simp [config_go, hk, h]
  · intro h; simp [on_cmd_import, h]
  · intro h; simp [on_cmd_status, h]
  · intro h; simp [on_cmd_history, h]
  · intro h; simp [on_cmd_balance_limit, h]
  · intro h; simp [on_cmd_balance_paper, h]

/-- C2 witness: the containment theorem instantiated at `appFail`, whose
every operation raises with message `boom`, with every hypothesis
discharged by computation. -/
theorem dispatcher_handlers_contain_app_errors_witness :
    on_cmd_start appFail
      { log_level := none, restore := false, script := none,
        is_quickstart := false } = { status := .ERROR, msg := ("boom") } ∧
    on_cmd_stop appFail { skip_order_cancellation := false } =
      { status := .ERROR, msg := ("boom") } ∧
    on_cmd_config appFail { params := [] } =
      ({ status := .ERROR, msg := ("boom") }, [ConfigEffect.interactive]) ∧
    config_go appFail [(("k1"), ("v1"))] [] [] =
      ({ status := .ERROR, msg := ("boom"), changes := [] },
        [ConfigEffect.validate ("k1"), ConfigEffect.applyCall ("k1") ("v1")]) ∧
    on_cmd_import appFail { strategy := some ("pmm") } =
      ({ status := .ERROR, msg := ("boom") },
        [CmdEffect.importCall ("pmm.yml"), CmdEffect.notifyCall ("boom")]) ∧
    on_cmd_status appFail {} = { status := .ERROR, msg := ("boom") } ∧
    on_cmd_history appFail { days := 1, verbose := false, precision := none } =
      { status := .ERROR, msg := ("boom") } ∧
    on_cmd_balance_limit appFail
      { exchange := ("binance"), asset := ("BTC"), amount := ("1") } =
      { status := .ERROR, msg := ("boom") } ∧
    on_cmd_balance_paper appFail { asset := ("BTC"), amount := ("1") } =
      { status := .ERROR, msg := ("boom") } := by
  have h := dispatcher_handlers_contain_app_errors appFail ("boom") ("pmm")
    ("k1") ("v1")
    { log_level := none, restore := false, script := none,
      is_quickstart := false }
    { skip_order_cancellation := false }
    { days := 1, verbose := false, precision := none } {}
    { exchange := ("binance"), asset := ("BTC"), amount := ("1") }
    { asset := ("BTC"), amount := ("1") } [] [] []
  exact ⟨h.1 rfl, h.2.1 rfl, h.2.2.1 rfl, h.2.2.2.1 (by decide) rfl,
    h.2.2.2.2.1 rfl, h.2.2.2.2.2.1 rfl, h.2.2.2.2.2.2.1 rfl,
    h.2.2.2.2.2.2.2.1 rfl, h.2.2.2.2.2.2.2.2 rfl⟩

/-- C3 counterexample: the claim expects `changes = [(k1, v1)]` when
`k1` is allow-listed and applying it raises. In the source the append to
`response.changes` comes only after the application call succeeded, so
the failing pair is never recorded: at the claim's own input the changes
list is empty, not `[(k1, v1)]`. -/
theorem config_failure_changes_counterexample :
    appFail.configurable_keys = [("k1"), ("k2")] ∧
    appFail.config ("k1") ("v1") = .error ("boom") ∧
    (on_cmd_config appFail
      { params := [(("k1"), ("v1")), (("k2"), ("v2"))] }).1.status = .ERROR ∧
    (on_cmd_config appFail
      { params := [(("k1"), ("v1")), (("k2"), ("v2"))] }).1.changes = [] ∧
    ¬ (on_cmd_config appFail
      { params := [(("k1"), ("v1")), (("k2"), ("v2"))] }).1.changes =
        [(("k1"), ("v1"))] := by
  refine ⟨rfl, rfl, ?_, ?_, ?_⟩ <;> decide

/-- C3 amended: for a config request `[(k1, v1), (k2, v2)]` where `k1`
is allow-listed and applying it raises, the handler aborts the iteration
immediately (`k2` is neither validated nor applied — the effect trace
ends at `k1`), returns status `ERROR` with the failure message, and the
response's `changes` list is empty: only pairs applied successfully
before the failure are retained, and the failing pair itself is not
recorded. -/
theorem config_failure_aborts_without_failing_pair
    (app : HBApp) (k1 v1 k2 v2 e : String)
    (h1 : k1 ∈ app.configurable_keys)
    (h2 : app.config k1 v1 = .error e) :
    on_cmd_config app { params := [(k1, v1), (k2, v2)] } =
      ({ status := .ERROR, msg := e, changes := [] },
        [ConfigEffect.validate k1, ConfigEffect.applyCall k1 v1]) := by
  simp [on_cmd_config, config_go, h1, h2]

/-- C3 witness: the amended statement at the concrete failing
application. -/
theorem config_failure_aborts_without_failing_pair_witness :
    on_cmd_config appFail
      { params := [(("k1"), ("v1")), (("k2"), ("v2"))] } =
      ({ status := .ERROR, msg := ("boom"), changes := [] },
        [ConfigEffect.validate ("k1"), ConfigEffect.applyCall ("k1") ("v1")]) :=
  config_failure_aborts_without_failing_pair appFail ("k1") ("v1") ("k2")
    ("v2") ("boom") (by decide) rfl

/-- C4: for the payload-carrying handlers other than config, whenever the
underlying application call raises (at either failure point of the
history handler), every payload field of the returned response equals its
default empty value — stated as a full-record equality, so nothing is
partially filled. -/
theorem handlers_payload_default_on_error
    (app : HBApp) (e : String) (u : Unit)
    (streq : StatusRequest) (hreq : HistoryRequest)
    (blreq : BalanceLimitRequest) (bpreq : BalancePaperRequest) :
    (app.strategy_status = .error e →
      on_cmd_status app streq =
        { status := .ERROR, msg := e, data := "" }) ∧
    (app.history hreq.days hreq.verbose hreq.precision = .error e →
      on_cmd_history app hreq =
        { status := .ERROR, msg := e, trades := [] }) ∧
    (app.history hreq.days hreq.verbose hreq.precision = .ok u →
      app.get_history_trades hreq.days = .error e →
      on_cmd_history app hreq =
        { status := .ERROR, msg := e, trades := [] }) ∧
    (app.balance ("limit") [blreq.exchange, blreq.asset, blreq.amount] =
        .error e →
      on_cmd_balance_limit app blreq =
        { status := .ERROR, msg := e, data := "" }) ∧
    (app.balance ("paper") [bpreq.asset, bpreq.amount] = .error e →
      on_cmd_balance_paper app bpreq =
        { status := .ERROR, msg := e, data := "" }) := by
  refine ⟨?_, ?_, ?_, ?_, ?_⟩
  · intro h; simp [on_cmd_status, h]
  · intro h; simp [on_cmd_history, h]
  · intro h1 h2; simp [on_cmd_history, h1, h2]
  · intro h; simp [on_cmd_balance_limit, h]
  · intro h; simp [on_cmd_balance_paper, h]

/-- C4 witness: the payload-default theorem instantiated at `appFail`
(every call fails) and at `appTradesFail` (only the trade fetch fails),
all hypotheses discharged by computation. -/
theorem handlers_payload_default_on_error_witness :
    on_cmd_status appFail {} =
      { status := .ERROR, msg := ("boom"), data := "" } ∧
    on_cmd_history appFail { days := 1, verbose := false, precision := none } =
      { status := .ERROR, msg := ("boom"), trades := [] } ∧
    on_cmd_history appTradesFail
      { days := 1, verbose := false, precision := none } =
      { status := .ERROR, msg := ("boom"), trades := [] } ∧
    on_cmd_balance_limit appFail
      { exchange := ("binance"), asset := ("BTC"), amount := ("1") } =
      { status := .ERROR, msg := ("boom"), data := "" } ∧
    on_cmd_balance_paper appFail { asset := ("BTC"), amount := ("1") } =
      { status := .ERROR, msg := ("boom"), data := "" } := by
  have h1 := handlers_payload_default_on_error appFail ("boom") () {}
    { days := 1, verbose := false, precision := none }
    { exchange := ("binance"), asset := ("BTC"), amount := ("1") }
    { asset := ("BTC"), amount := ("1") }
  have h2 := handlers_payload_default_on_error appTradesFail ("boom") () {}
    { days := 1, verbose := false, precision := none }
    { exchange := ("binance"), asset := ("BTC"), amount := ("1") }
    { asset := ("BTC"), amount := ("1") }
  exact ⟨h1.1 rfl, h1.2.1 rfl, h2.2.2.1 rfl rfl, h1.2.2.2.1 rfl,
    h1.2.2.2.2 rfl⟩

/-- C5: the import handler returns the default `OK` response and performs
no application call at all when the strategy name is null; for a non-null
name it invokes the import operation on the name with the fixed `.yml`
extension appended, and on failure it forwards the failure message to the
application's notification path in addition to returning the `ERROR`
response. -/
theorem import_handler_null_and_failure_semantics
    (app : HBApp) (s e : String) (u : Unit) :
    (on_cmd_import app { strategy := none } = ({}, [])) ∧
    (app.import_command (s ++ (".yml")) = .ok u →
      on_cmd_import app { strategy := some s } =
        ({}, [CmdEffect.importCall (s ++ (".yml"))])) ∧
    (app.import_command (s ++ (".yml")) = .error e →
      on_cmd_import app { strategy := some s } =
        ({ status := .ERROR, msg := e },
          [CmdEffect.importCall (s ++ (".yml")), CmdEffect.notifyCall e])) := by
  refine ⟨rfl, ?_, ?_⟩
  · intro h; simp [on_cmd_import, h]
  · intro h; simp [on_cmd_import, h]

/-- C5 witness: the import semantics at a succeeding and at a failing
application. -/
theorem import_handler_null_and_failure_semantics_witness :
    on_cmd_import appOk { strategy := none } = ({}, []) ∧
    on_cmd_import appOk { strategy := some ("pmm") } =
      ({}, [CmdEffect.importCall ("pmm.yml")]) ∧
    on_cmd_import appFail { strategy := some ("pmm") } =
      ({ status := .ERROR, msg := ("boom") },
        [CmdEffect.importCall ("pmm.yml"), CmdEffect.notifyCall ("boom")]) := by
  have hOk := import_handler_null_and_failure_semantics appOk ("pmm") ("boom") ()
  have hF := import_handler_null_and_failure_semantics appFail ("pmm") ("boom") ()
  refine ⟨hOk.1, ?_, ?_⟩
  · have := hOk.2.1 rfl
    simpa using this
  · have := hF.2.2 rfl
    simpa using this

/-- C6: payload normalization is a total function (no payload is dropped
and no failure escapes, by construction of the embedding) that tries the
conversions in precedence order with first match winning — structured
record (dataclass) first, then named-tuple, then generic mapping — and
falls back to the empty mapping when every conversion fails. -/
theorem normalize_event_data_precedence_total (p : EventPayload) :
    (∀ fs, p.dataclassFields = some fs → normalize_event_data p = fs) ∧
    (p.dataclassFields = none → ∀ fs, p.tupleFields = some fs →
      normalize_event_data p = fs) ∧
    (p.dataclassFields = none → p.tupleFields = none →
      ∀ ps, p.dictConv = some ps → normalize_event_data p = ps) ∧
    (p.dataclassFields = none → p.tupleFields = none → p.dictConv = none →
      normalize_event_data p = []) := by
  refine ⟨?_, ?_, ?_, ?_⟩ <;> intros <;> simp [normalize_event_data, *]

/-- C6 witness: the dataclass conversion wins over a simultaneously
available tuple conversion, and a payload convertible by no probe
normalizes to the empty mapping. -/
theorem normalize_event_data_precedence_total_witness :
    normalize_event_data
      { dataclassFields := some [(("amount"), 5)],
        tupleFields := some [(("x"), 1)], dictConv := none } =
      [(("amount"), 5)] ∧
    normalize_event_data payloadNone = [] := by
  constructor
  · exact (normalize_event_data_precedence_total _).1 _ rfl
  · exact (normalize_event_data_precedence_total payloadNone).2.2.2 rfl rfl rfl

/-- C7: invoked from any context other than the owning (main) one, the
event handler re-submits the identical handling call (same tag, same
source reference, same payload) and returns immediately with no publish;
driving the event to completion publishes exactly one message on the main
context, identical to what a same-context invocation publishes. -/
theorem event_forwarder_thread_hop (now : Int) (event_tag : Int)
    (pubsub : Nat) (event : EventPayload) :
    send_mqtt_event false now event_tag pubsub event =
      .resubmit event_tag pubsub event ∧
    run_event_handling false now event_tag pubsub event =
      run_event_handling true now event_tag pubsub event ∧
    run_event_handling false now event_tag pubsub event =
      [send_mqtt_event_main now event_tag event] := by
  refine ⟨rfl, ?_, ?_⟩ <;> simp [run_event_handling, send_mqtt_event]

/-- C8: if the normalized payload mapping contains a `timestamp` entry,
the published message's timestamp is that entry's value and its data
mapping no longer binds `timestamp` while every other key is unchanged;
without such an entry the published timestamp is the wall clock and the
data mapping is the normalized mapping itself. -/
theorem event_timestamp_extraction (now : Int) (tag : Int)
    (p : EventPayload) :
    (∀ ts, dict_lookup ("timestamp") (normalize_event_data p) = some ts →
      (send_mqtt_event_main now tag p).timestamp = ts ∧
      dict_lookup ("timestamp") (send_mqtt_event_main now tag p).data =
        none ∧
      ∀ k, k ≠ ("timestamp") →
        dict_lookup k (send_mqtt_event_main now tag p).data =
          dict_lookup k (normalize_event_data p)) ∧
    (dict_lookup ("timestamp") (normalize_event_data p) = none →
      (send_mqtt_event_main now tag p).timestamp = now ∧
      (send_mqtt_event_main now tag p).data = normalize_event_data p) := by
  constructor
  · intro ts h
    refine ⟨?_, ?_, ?_⟩
    · simp [send_mqtt_event_main, dict_pop, h]
    · simp [send_mqtt_event_main, dict_pop, h, dict_lookup_erase_self]
    · intro k hk
      simp [send_mqtt_event_main, dict_pop, h, dict_lookup_erase_ne _ _ hk]
  · intro h
    constructor <;> simp [send_mqtt_event_main, dict_pop, h]

/-- C8 witness: the spec's worked example — a structured record
`(amount: 5, timestamp: 1000)` publishes `data = [(amount, 5)]` with
timestamp `1000` even though the wall clock reads `7`. -/
theorem event_timestamp_extraction_witness :
    (send_mqtt_event_main 7 106 payloadEx).timestamp = 1000 ∧
    dict_lookup ("timestamp") (send_mqtt_event_main 7 106 payloadEx).data =
      none ∧
    dict_lookup ("amount") (send_mqtt_event_main 7 106 payloadEx).data =
      some 5 := by
  have h := (event_timestamp_extraction 7 106 payloadEx).1 1000 (by decide)
  refine ⟨h.1, h.2.1, ?_⟩
  rw [h.2.2 ("amount") (by decide)]
  decide

/-- C9: for every entry of the closed label table the published message's
type field equals the table's human-readable label, and for every
identifier outside the table it equals `Unknown`. -/
theorem event_type_label_mapping (now : Int) (p : EventPayload) :
    (∀ pr ∈ event_types, (send_mqtt_event_main now pr.1 p).type = pr.2) ∧
    (∀ tag : Int, tag ∉ event_types.map Prod.fst →
      (send_mqtt_event_main now tag p).type = ("Unknown")) := by
  constructor
  · intro pr hpr
    have hall : ∀ q ∈ event_types, label_lookup q.1 event_types = some q.2 :=
      by decide
    simp [send_mqtt_event_main, hall pr hpr]
  · intro tag htag
    simp [send_mqtt_event_main,
      label_lookup_none_of_not_mem tag event_types htag]

/-- C9 witness: the identifier of `OrderFilled` publishes with label
`OrderFilled`, and the identifier `999`, outside the table, publishes
with label `Unknown`. -/
theorem event_type_label_mapping_witness :
    (send_mqtt_event_main 0 106 payloadNone).type = ("OrderFilled") ∧
    (send_mqtt_event_main 0 999 payloadNone).type = ("Unknown") := by
  have h := event_type_label_mapping 0 payloadNone
  exact ⟨h.1 (106, ("OrderFilled")) (by decide), h.2 999 (by decide)⟩

/-- C10: constructed from any thread other than the main thread, the
event forwarder raises the `EnvironmentError` before any state is set up
(the error result carries no forwarder state and no effects — no
publisher is created and no listener registered); a construction that
succeeds can only have run on the main thread. -/
theorem forwarder_init_main_thread_only (uid : String)
    (markets : List String) :
    (forwarder_init false uid markets =
      .error
        ("MQTTEventForwarder can only be initialized from the main thread.")) ∧
    (∀ b : Bool, (forwarder_init b uid markets).isOk = true → b = true) := by
  constructor
  · rfl
  · intro b h
    cases b
    · simp [forwarder_init, Except.isOk, Except.toBool] at h
    · rfl

/-- C10 witness: the construction theorem at a concrete instance
identifier, the success hypothesis discharged on the main thread by
computation. -/
theorem forwarder_init_main_thread_only_witness :
    (forwarder_init false ("botA") [] =
      .error
        ("MQTTEventForwarder can only be initialized from the main thread.")) ∧
    (true = true) := by
  have h := forwarder_init_main_thread_only ("botA") ([] : List String)
  exact ⟨h.1, h.2 true rfl⟩
